import Mathlib

/-!
# Rush project selector expression engine — verification development

Shallow embedding of the selector-expression evaluator of the Rush monorepo
orchestrator:

* `RushProjectSelector.selectExpression` and its helpers `_evaluateSelector`,
  `_evaluateFilter`, `_evaluateOperator`
  (src/unnamed/part_002, the `RushProjectSelector` class);
* `JsonFileSelectorParser.evaluateSelectorAsync` / `getAbsolutePath`
  (src/libraries/rush-lib/src/logic/selectors/JsonFileSelectorParser.ts);
* `SelectorExpressionJsonFile.tryLoadAsync`
  (src/libraries/rush-lib/src/api/SelectorExpressionJsonFile.ts).

External collaborators (the file system, Node's `path.resolve`, the four
non-JSON scope parsers, and the `Selection` set/closure utilities) are
supplied as components of an environment record, so theorems quantify over
every possible behaviour of those collaborators.

The evaluator in JavaScript is an unbounded recursion (a JSON-file selector
re-enters `selectExpression` on the loaded expression).  The embedding adds
an explicit recursion budget `fuel`; the result `diverge` means the budget
was exhausted, so `∀ fuel, … = diverge` states that the JavaScript call
never returns (unbounded recursion / stack overflow).
-/

/-- A project of the monorepo graph, identified by its unique package name
(`RushConfigurationProject` references are compared by identity; package
names are unique within a configuration). -/
abbrev RushConfigurationProject := String

/-- Errors an evaluation can surface.  `selectorError` embeds the
`SelectorError` class (src/logic/selectors/SelectorError); `rawError` is any
other JavaScript exception (I/O errors, schema-validation errors,
`TypeError`s) propagating uncaught. -/
inductive EvalError where
  | selectorError (message : String)
  | rawError (message : String)
deriving DecidableEq, Repr

/-- Outcome of one evaluation under a recursion budget: a project list, a
thrown error, or budget exhaustion (`diverge` — the JavaScript original
would still be recursing). -/
inductive EvalResult where
  | ok (projects : List RushConfigurationProject)
  | err (e : EvalError)
  | diverge
deriving DecidableEq, Repr

/-- Sequencing of evaluations: errors and divergence propagate, mirroring
`await` of a rejected promise. -/
def EvalResult.bind : EvalResult → (List RushConfigurationProject → EvalResult) → EvalResult
  | .ok s, f => f s
  | .err e, _ => .err e
  | .diverge, _ => .diverge

/-- An expression node as the evaluator actually receives it: a JSON object
whose `scope`, `value`, `filter`, `op`, `arg`, `args` keys may each be
present or absent.  The TypeScript type `ExpressionJson` is a union of
`ISelectorJson`, `IFilterJson`, `IOperatorJson`, but the evaluator
discriminates by testing key truthiness on the raw object, so the embedding
keeps all keys optional. -/
inductive ExpressionJson where
  | node (scope : Option String) (value : Option String)
      (filter : Option String) (arg : Option ExpressionJson)
      (op : Option String) (args : List ExpressionJson)

def ExpressionJson.scope : ExpressionJson → Option String
  | .node s _ _ _ _ _ => s

def ExpressionJson.value : ExpressionJson → Option String
  | .node _ v _ _ _ _ => v

def ExpressionJson.filter : ExpressionJson → Option String
  | .node _ _ f _ _ _ => f

def ExpressionJson.arg : ExpressionJson → Option ExpressionJson
  | .node _ _ _ a _ _ => a

def ExpressionJson.op : ExpressionJson → Option String
  | .node _ _ _ _ o _ => o

def ExpressionJson.args : ExpressionJson → List ExpressionJson
  | .node _ _ _ _ _ a => a

/-- JavaScript truthiness of a possibly-absent string property: `undefined`
and the empty string are falsy (`!!(expr as ISelectorJson).scope`). -/
def truthy : Option String → Bool
  | none => false
  | some s => !(s == "")

/-- JavaScript coercion of a possibly-absent string to a string, as it
happens in template literals and `===` comparisons (`undefined` prints as
"undefined"). -/
def optString : Option String → String
  | none => "undefined"
  | some s => s

/-- `RushProjectSelector._isSelector`: `!!(expr as ISelectorJson).scope`. -/
def isSelectorNode (e : ExpressionJson) : Bool := truthy e.scope

/-- `RushProjectSelector._isFilter`: `!!(expr as IFilterJson).filter`. -/
def isFilterNode (e : ExpressionJson) : Bool := truthy e.filter

/-- `RushProjectSelector._isOperator`: `!!(expr as IOperatorJson).op`. -/
def isOperatorNode (e : ExpressionJson) : Bool := truthy e.op

/-- What the file system holds at a path, as seen through
`JsonFile.loadAndValidateAsync`: no file, a file that fails to load or to
schema-validate (carrying the raw error message), or a validated
expression. -/
inductive FileContent where
  | missing
  | invalid (message : String)
  | valid (expr : ExpressionJson)

/-- `SelectorExpressionJsonFile.tryLoadAsync`: `loadAsync` inside
`try/catch`; only `FileSystem.isNotExistError` errors become `undefined`
(`ok none`), every other error is re-thrown unchanged. -/
def tryLoadAsync : FileContent → Except EvalError (Option ExpressionJson)
  | .missing => .ok none
  | .invalid m => .error (.rawError m)
  | .valid e => .ok (some e)

/-- The evaluation environment: the Rush configuration plus every external
collaborator of the evaluator, each as an abstract function. -/
structure Env where
  /-- `rushConfig.projects` — the universe of all projects. -/
  projects : List RushConfigurationProject
  /-- `rushConfig.rushJsonFolder` — the monorepo root. -/
  rushJsonFolder : String
  /-- `process.cwd()`. -/
  cwd : String
  /-- Node's `path.resolve(base, file)` (external library). -/
  pathResolve : String → String → String
  /-- The file system keyed by absolute path (external). -/
  files : String → FileContent
  /-- `NamedProjectSelectorParser.evaluateSelectorAsync` (value, context). -/
  nameScope : Option String → String → Except EvalError (List RushConfigurationProject)
  /-- `GitChangedProjectSelectorParser.evaluateSelectorAsync`. -/
  gitScope : Option String → String → Except EvalError (List RushConfigurationProject)
  /-- `TagProjectSelectorParser.evaluateSelectorAsync`. -/
  tagScope : Option String → String → Except EvalError (List RushConfigurationProject)
  /-- `VersionPolicyProjectSelectorParser.evaluateSelectorAsync`. -/
  versionPolicyScope : Option String → String → Except EvalError (List RushConfigurationProject)
  /-- `Selection.expandAllDependencies` (Selection.ts, not under src/). -/
  expandAllDependencies : List RushConfigurationProject → List RushConfigurationProject
  /-- `Selection.expandAllConsumers` (Selection.ts, not under src/). -/
  expandAllConsumers : List RushConfigurationProject → List RushConfigurationProject
  /-- `Selection.intersection` (Selection.ts, not under src/). -/
  intersection : List RushConfigurationProject → List RushConfigurationProject → List RushConfigurationProject
  /-- `Selection.union` (Selection.ts, not under src/). -/
  union : List RushConfigurationProject → List RushConfigurationProject → List RushConfigurationProject

/-- The parser registered for a scope name: one of the four external scope
parsers, or the JSON-file parser (the only one that re-enters the
evaluator). -/
inductive RegisteredScope where
  | external (evalFn : Option String → String → Except EvalError (List RushConfigurationProject))
  | jsonFile

/-- The scope map built in the `RushProjectSelector` constructor
(part_002 lines 44-56): exactly `name`, `git`, `tag`, `version-policy`,
`json`. -/
def Env.getScope (env : Env) (s : String) : Option RegisteredScope :=
  if s == "name" then some (.external env.nameScope)
  else if s == "git" then some (.external env.gitScope)
  else if s == "tag" then some (.external env.tagScope)
  else if s == "version-policy" then some (.external env.versionPolicyScope)
  else if s == "json" then some .jsonFile
  else none

/-- One character list begins with another (helper for `strStartsWith`). -/
def charsStartWith : List Char → List Char → Bool
  | _, [] => true
  | [], _ :: _ => false
  | c :: cs, d :: ds => c == d && charsStartWith cs ds

/-- JavaScript's `String.prototype.startsWith` (equivalently Lean's
`String.startsWith`), modelled on the unpacked character lists so that it
evaluates by kernel reduction. -/
def strStartsWith (s sub : String) : Bool := charsStartWith s.data sub.data

/-- `JsonFileSelectorParser.getAbsolutePath` (JsonFileSelectorParser.ts
lines 43-49): paths starting with "." resolve against the current working
directory, all others against the `rush.json` folder. -/
def getAbsolutePath (env : Env) (file : String) : String :=
  if strStartsWith file "." then env.pathResolve env.cwd file
  else env.pathResolve env.rushJsonFolder file

/-- JavaScript `new Set(array)`: de-duplicate keeping the first occurrence
of each element, in insertion order. -/
def jsSet : List RushConfigurationProject → List RushConfigurationProject
  | [] => []
  | p :: rest => p :: (jsSet rest).filter (fun q => !(q == p))

/-- The message of the `TypeError` JavaScript raises when a property of
`undefined` is read (e.g. `_isSelector(undefined)` for a missing operator
argument, or `file.startsWith` on an `undefined` selector value). -/
def typeErrorMessage : String := "TypeError: Cannot read properties of undefined"

/-- `RushProjectSelector.selectExpression` (part_002 lines 62-74) with its
helpers `_evaluateSelector` (76-93), `_evaluateFilter` (95-111),
`_evaluateOperator` (113-135) and `JsonFileSelectorParser.
evaluateSelectorAsync` inlined.  `fuel` bounds the recursion depth; every
recursive re-entry of `selectExpression` consumes one unit, and a `diverge`
result means the JavaScript original is still recursing at that depth. -/
def selectExpression : Nat → Env → Option ExpressionJson → String → EvalResult
  | 0, _, _, _ => .diverge
  | _ + 1, _, none, _ =>
    -- `_isSelector(undefined)` reads `.scope` of `undefined` and throws.
    .err (.rawError typeErrorMessage)
  | n + 1, env, some e, context =>
    if isSelectorNode e then
      -- _evaluateSelector (part_002 lines 76-93)
      match env.getScope (optString e.scope) with
      | none =>
        .err (.selectorError ("Unknown selector scope '" ++ optString e.scope ++
          "' for value '" ++ optString e.value ++ "' in " ++ context ++ "."))
      | some (.external f) =>
        match f e.value context with
        | .ok ps => .ok ps
        | .error err => .err err
      | some .jsonFile =>
        -- JsonFileSelectorParser.evaluateSelectorAsync (lines 24-37)
        match e.value with
        | none => .err (.rawError typeErrorMessage)
        | some v =>
          match tryLoadAsync (env.files (getAbsolutePath env v)) with
          | .error err => .err err
          | .ok none =>
            .err (.selectorError ("Unable to find JSON file at \"" ++
              getAbsolutePath env v ++ "\" in " ++ context ++ "."))
          | .ok (some loaded) =>
            selectExpression n env (some loaded) ("JSON file " ++ v ++ " in " ++ context)
    else if isFilterNode e then
      -- _evaluateFilter (part_002 lines 95-111)
      if optString e.filter == "to" then
        (selectExpression n env e.arg context).bind fun s =>
          .ok (env.expandAllDependencies s)
      else if optString e.filter == "from" then
        (selectExpression n env e.arg context).bind fun s =>
          .ok (env.expandAllDependencies (env.expandAllConsumers s))
      else if optString e.filter == "only" then
        -- "only" is sort of a no-op in a generic selector expression
        selectExpression n env e.arg context
      else
        .err (.selectorError ("Unknown filter '" ++ optString e.filter ++
          "' encountered in selector expression in " ++ context ++ "."))
    else if isOperatorNode e then
      -- _evaluateOperator (part_002 lines 113-135)
      if optString e.op == "not" then
        (selectExpression n env e.args[0]? context).bind fun result =>
          .ok (env.projects.filter fun p => !(result.contains p))
      else if optString e.op == "and" then
        (selectExpression n env e.args[0]? context).bind fun l =>
          (selectExpression n env e.args[1]? context).bind fun r =>
            .ok (env.intersection (jsSet l) (jsSet r))
      else if optString e.op == "or" then
        (selectExpression n env e.args[0]? context).bind fun l =>
          (selectExpression n env e.args[1]? context).bind fun r =>
            .ok (env.union (jsSet l) (jsSet r))
      else
        .err (.selectorError ("Unknown operator '" ++ optString e.op ++
          "' in selector expression in " ++ context ++ "."))
    else
      -- Fail-safe branch of selectExpression (part_002 lines 70-73)
      .err (.selectorError ("Invalid object encountered in selector expression in " ++
        context ++ "."))

/-- A pure selector node `{scope, value}`. -/
def mkSelector (scope value : String) : ExpressionJson :=
  .node (some scope) (some value) none none none []

/-- A pure filter node `{filter, arg}`. -/
def mkFilter (filter : String) (arg : ExpressionJson) : ExpressionJson :=
  .node none none (some filter) (some arg) none []

/-- A pure operator node `{op, args}`. -/
def mkOp (op : String) (args : List ExpressionJson) : ExpressionJson :=
  .node none none none none (some op) args

/-- `sub` occurs inside `s` as a contiguous substring. -/
def containsStr (s sub : String) : Prop := ∃ p q, s = p ++ sub ++ q

/-- A small concrete environment for instantiating theorems: three projects
`a`, `b`, `c`; the `name` scope resolves to `["a"]`, `tag` and `git` to the
empty set, `version-policy` fails; no file exists; the closure and set
operations are arbitrary concrete functions. -/
def sampleEnv : Env := {
  projects := ["a", "b", "c"]
  rushJsonFolder := "/repo"
  cwd := "/repo/work"
  pathResolve := fun base f => base ++ "/" ++ f
  files := fun _ => .missing
  nameScope := fun _ _ => .ok ["a"]
  gitScope := fun _ _ => .ok []
  tagScope := fun _ _ => .ok []
  versionPolicyScope := fun _ _ => .error (.selectorError "no policy")
  expandAllDependencies := fun l => l ++ ["b"]
  expandAllConsumers := fun l => l ++ ["c"]
  intersection := fun l r => l.filter r.contains
  union := fun l r => l ++ r
}

/-- `{scope:"tag", value:"x"}` — evaluates to the empty set in `sampleEnv`. -/
def tagNode : ExpressionJson := mkSelector "tag" "x"

/-- `{scope:"name", value:"a"}` — evaluates to `["a"]` in `sampleEnv`. -/
def nameNode : ExpressionJson := mkSelector "name" "a"

/-- `{scope:"bogus", value:"v"}` — an unregistered scope. -/
def bogusNode : ExpressionJson := mkSelector "bogus" "v"

/-- A JSON object with none of the `scope` / `filter` / `op` keys. -/
def emptyNode : ExpressionJson := .node none none none none none []

/-- `{scope:"json", value:"/self.json"}` — the expression stored inside the
file `/self.json` itself: a JSON file that selects itself. -/
def cycNode : ExpressionJson := mkSelector "json" "/self.json"

/-- Environment holding the self-including file `/self.json` (absolute
paths resolve to themselves). -/
def cycEnv : Env := { sampleEnv with
  pathResolve := fun _ f => f
  files := fun p => if p == "/self.json" then .valid cycNode else .missing
}

/-- Environment whose file system holds a single malformed selector file
`/repo/bad.json` (it exists but fails schema validation); every other path
is absent. -/
def fsEnv : Env := { sampleEnv with
  files := fun p => if p == "/repo/bad.json" then .invalid "does not conform to the schema" else .missing
}

/-- A node whose `scope` key holds the empty string while also carrying a
truthy `filter` key: `{scope:"", filter:"only", arg:{scope:"name",value:"a"}}`. -/
def c10Node : ExpressionJson := .node (some "") none (some "only") (some nameNode) none []

/-- Unfolding of one evaluation step for a pure JSON-file selector node:
`_evaluateSelector` dispatches to `JsonFileSelectorParser.
evaluateSelectorAsync`, which resolves the path, loads the file through
`SelectorExpressionJsonFile.tryLoadAsync`, and re-enters `selectExpression`
on the loaded expression. -/
theorem selectExpression_json_eq (fuel : Nat) (env : Env) (v context : String) :
    selectExpression (fuel + 1) env (some (mkSelector "json" v)) context =
      match tryLoadAsync (env.files (getAbsolutePath env v)) with
      | .error err => .err err
      | .ok none =>
        .err (.selectorError ("Unable to find JSON file at \"" ++
          getAbsolutePath env v ++ "\" in " ++ context ++ "."))
      | .ok (some loaded) =>
        selectExpression fuel env (some loaded) ("JSON file " ++ v ++ " in " ++ context) := rfl

/-- C7: for every sub-expression `X` and context, evaluating the filter
node `{filter:"only", arg:X}` returns exactly the result of evaluating `X`
directly — the `only` filter is the identity transformation. -/
theorem only_filter_is_identity (fuel : Nat) (env : Env) (X : ExpressionJson)
    (context : String) :
    selectExpression (fuel + 1) env (some (mkFilter "only" X)) context =
      selectExpression fuel env (some X) context := rfl

/-- C2: a node matching none of the three variants (no truthy `scope`,
`filter` or `op` key) makes `selectExpression` fail with a `SelectorError`
whose message includes the supplied context string; it never returns a
project set for such a node. -/
theorem invalid_node_fails_with_context (fuel : Nat) (env : Env) (e : ExpressionJson)
    (context : String)
    (h1 : isSelectorNode e = false) (h2 : isFilterNode e = false)
    (h3 : isOperatorNode e = false) :
    selectExpression (fuel + 1) env (some e) context =
      .err (.selectorError ("Invalid object encountered in selector expression in " ++
        context ++ ".")) ∧
    containsStr ("Invalid object encountered in selector expression in " ++ context ++ ".")
      context := by
  refine ⟨?_, "Invalid object encountered in selector expression in ", ".", rfl⟩
  simp [selectExpression, h1, h2, h3]

/-- Witness for C2 at the key-free node `{}` in `sampleEnv`. -/
theorem invalid_node_fails_with_context_w :
    selectExpression 1 sampleEnv (some emptyNode) "w2" =
      .err (.selectorError "Invalid object encountered in selector expression in w2.") ∧
    containsStr "Invalid object encountered in selector expression in w2." "w2" :=
  invalid_node_fails_with_context 0 sampleEnv emptyNode "w2" rfl rfl rfl

/-- C3: evaluating `{filter:"to", arg:X}` applies
`Selection.expandAllDependencies` to the result of evaluating `X`, and
evaluating `{filter:"from", arg:X}` applies `expandAllDependencies` after
`expandAllConsumers` to the result of evaluating `X`. -/
theorem to_from_filter_semantics (fuel : Nat) (env : Env) (X : ExpressionJson)
    (context : String) (S : List RushConfigurationProject) :
    (selectExpression fuel env (some X) context = .ok S →
      selectExpression (fuel + 1) env (some (mkFilter "to" X)) context =
        .ok (env.expandAllDependencies S)) ∧
    (selectExpression fuel env (some X) context = .ok S →
      selectExpression (fuel + 1) env (some (mkFilter "from" X)) context =
        .ok (env.expandAllDependencies (env.expandAllConsumers S))) := by
  constructor <;> intro h
  · show (selectExpression fuel env (some X) context).bind
        (fun s => .ok (env.expandAllDependencies s)) = _
    rw [h]; rfl
  · show (selectExpression fuel env (some X) context).bind
        (fun s => .ok (env.expandAllDependencies (env.expandAllConsumers s))) = _
    rw [h]; rfl

/-- Witness for C3 at `{scope:"name", value:"a"}` in `sampleEnv`. -/
theorem to_from_filter_semantics_w :
    selectExpression 2 sampleEnv (some (mkFilter "to" nameNode)) "w3" =
      .ok (sampleEnv.expandAllDependencies ["a"]) ∧
    selectExpression 2 sampleEnv (some (mkFilter "from" nameNode)) "w3" =
      .ok (sampleEnv.expandAllDependencies (sampleEnv.expandAllConsumers ["a"])) :=
  ⟨(to_from_filter_semantics 1 sampleEnv nameNode "w3" ["a"]).1 rfl,
   (to_from_filter_semantics 1 sampleEnv nameNode "w3" ["a"]).2 rfl⟩

/-- C5: for `and`/`or` operator nodes the left argument is evaluated before
the right and both are always evaluated with no short-circuit: if the left
argument yields the empty set and the right argument is erroneous, the node
still fails with the right argument's error (first conjunct); and an error
in the left argument propagates without the right being able to mask it
(second conjunct). -/
theorem and_or_no_short_circuit (fuel : Nat) (env : Env) (a0 a1 : ExpressionJson)
    (context : String) (e e' : EvalError) :
    (selectExpression fuel env (some a0) context = .ok [] →
     selectExpression fuel env (some a1) context = .err e →
       selectExpression (fuel + 1) env (some (mkOp "and" [a0, a1])) context = .err e ∧
       selectExpression (fuel + 1) env (some (mkOp "or" [a0, a1])) context = .err e) ∧
    (selectExpression fuel env (some a0) context = .err e' →
       selectExpression (fuel + 1) env (some (mkOp "and" [a0, a1])) context = .err e' ∧
       selectExpression (fuel + 1) env (some (mkOp "or" [a0, a1])) context = .err e') := by
  constructor
  · intro h0 h1
    constructor
    · show (selectExpression fuel env (some a0) context).bind
          (fun l => (selectExpression fuel env (some a1) context).bind
            (fun r => .ok (env.intersection (jsSet l) (jsSet r)))) = _
      rw [h0]
      show (selectExpression fuel env (some a1) context).bind _ = _
      rw [h1]; rfl
    · show (selectExpression fuel env (some a0) context).bind
          (fun l => (selectExpression fuel env (some a1) context).bind
            (fun r => .ok (env.union (jsSet l) (jsSet r)))) = _
      rw [h0]
      show (selectExpression fuel env (some a1) context).bind _ = _
      rw [h1]; rfl
  · intro h0
    constructor
    · show (selectExpression fuel env (some a0) context).bind
          (fun l => (selectExpression fuel env (some a1) context).bind
            (fun r => .ok (env.intersection (jsSet l) (jsSet r)))) = _
      rw [h0]; rfl
    · show (selectExpression fuel env (some a0) context).bind
          (fun l => (selectExpression fuel env (some a1) context).bind
            (fun r => .ok (env.union (jsSet l) (jsSet r)))) = _
      rw [h0]; rfl

/-- Witness for C5: in `sampleEnv`, `{op:"and", args:[tag-empty, bogus]}`
and `{op:"or", args:[tag-empty, bogus]}` fail with the right argument's
unknown-scope error even though the left argument is the empty set. -/
theorem and_or_no_short_circuit_w :
    selectExpression 2 sampleEnv (some (mkOp "and" [tagNode, bogusNode])) "w5" =
      .err (.selectorError "Unknown selector scope 'bogus' for value 'v' in w5.") ∧
    selectExpression 2 sampleEnv (some (mkOp "or" [tagNode, bogusNode])) "w5" =
      .err (.selectorError "Unknown selector scope 'bogus' for value 'v' in w5.") :=
  (and_or_no_short_circuit 1 sampleEnv tagNode bogusNode "w5"
    (.selectorError "Unknown selector scope 'bogus' for value 'v' in w5.")
    (.selectorError "Unknown selector scope 'bogus' for value 'v' in w5.")).1 rfl rfl

/-- C6: a selector node with a non-empty scope outside the registered set
`name`, `git`, `tag`, `version-policy`, `json` makes `selectExpression`
fail with a `SelectorError` whose message contains the unknown scope, the
literal unscoped value, and the supplied context. -/
theorem unknown_scope_error (fuel : Nat) (env : Env) (e : ExpressionJson)
    (context s v : String)
    (hscope : e.scope = some s) (hne : s ≠ "")
    (hreg : s ∉ ["name", "git", "tag", "version-policy", "json"])
    (hvalue : e.value = some v) :
    selectExpression (fuel + 1) env (some e) context =
      .err (.selectorError ("Unknown selector scope '" ++ s ++ "' for value '" ++ v ++
        "' in " ++ context ++ ".")) ∧
    containsStr ("Unknown selector scope '" ++ s ++ "' for value '" ++ v ++
      "' in " ++ context ++ ".") s ∧
    containsStr ("Unknown selector scope '" ++ s ++ "' for value '" ++ v ++
      "' in " ++ context ++ ".") v ∧
    containsStr ("Unknown selector scope '" ++ s ++ "' for value '" ++ v ++
      "' in " ++ context ++ ".") context := by
  simp only [List.mem_cons, List.mem_singleton, not_or] at hreg
  obtain ⟨hn1, hn2, hn3, hn4, hn5⟩ := hreg
  have h1 : isSelectorNode e = true := by
    simp [isSelectorNode, hscope, truthy, hne]
  refine ⟨?_,
    ⟨"Unknown selector scope '",
     "' for value '" ++ v ++ "' in " ++ context ++ ".", by simp [String.append_assoc]⟩,
    ⟨"Unknown selector scope '" ++ s ++ "' for value '",
     "' in " ++ context ++ ".", by simp [String.append_assoc]⟩,
    ⟨"Unknown selector scope '" ++ s ++ "' for value '" ++ v ++ "' in ",
     ".", by simp [String.append_assoc]⟩⟩
  simp [selectExpression, h1, hscope, hvalue, optString, Env.getScope,
    hn1, hn2, hn3, hn4, hn5]

/-- Witness for C6 at `{scope:"bogus", value:"v"}` in `sampleEnv`. -/
theorem unknown_scope_error_w :
    selectExpression 1 sampleEnv (some bogusNode) "w6" =
      .err (.selectorError "Unknown selector scope 'bogus' for value 'v' in w6.") ∧
    containsStr "Unknown selector scope 'bogus' for value 'v' in w6." "bogus" ∧
    containsStr "Unknown selector scope 'bogus' for value 'v' in w6." "v" ∧
    containsStr "Unknown selector scope 'bogus' for value 'v' in w6." "w6" :=
  unknown_scope_error 0 sampleEnv bogusNode "w6" "bogus" "v" rfl (by decide)
    (by decide) rfl

/-- Boolean negation equals true exactly when the negated value is false. -/
theorem bool_not_true (b : Bool) : ((!b) = true) ↔ b = false := by
  cases b <;> simp

/-- JavaScript `array.includes` (`List.contains`) returns false exactly for
non-members. -/
theorem contains_false_iff (l : List RushConfigurationProject)
    (p : RushConfigurationProject) : l.contains p = false ↔ p ∉ l := by
  constructor
  · intro h hmem
    have hc : l.contains p = true := List.elem_iff.2 hmem
    rw [h] at hc
    exact Bool.noConfusion hc
  · intro h
    cases hc : l.contains p with
    | false => rfl
    | true => exact absurd (List.elem_iff.1 hc) h

/-- C8: given that evaluating `X` yields a set of projects drawn from the
configured universe, evaluating `{op:"not", args:[{op:"not", args:[X]}]}`
yields the same project set (the `not` operator is complementation within
`rushConfig.projects`, so applying it twice restores the original set). -/
theorem double_not_restores_set (fuel : Nat) (env : Env) (X : ExpressionJson)
    (context : String) (S : List RushConfigurationProject)
    (hX : selectExpression fuel env (some X) context = .ok S)
    (hsub : ∀ p ∈ S, p ∈ env.projects) :
    ∃ T, selectExpression (fuel + 2) env (some (mkOp "not" [mkOp "not" [X]])) context =
        .ok T ∧ ∀ p, p ∈ T ↔ p ∈ S := by
  have hinner : selectExpression (fuel + 1) env (some (mkOp "not" [X])) context =
      .ok (env.projects.filter fun q => !(S.contains q)) := by
    show (selectExpression fuel env (some X) context).bind
        (fun result => .ok (env.projects.filter fun p => !(result.contains p))) = _
    rw [hX]; rfl
  refine ⟨env.projects.filter (fun p =>
      !((env.projects.filter fun q => !(S.contains q)).contains p)), ?_, ?_⟩
  · show (selectExpression (fuel + 1) env (some (mkOp "not" [X])) context).bind
        (fun result => .ok (env.projects.filter fun p => !(result.contains p))) = _
    rw [hinner]; rfl
  · intro p
    constructor
    · intro hpT
      obtain ⟨hpu, hnb⟩ := List.mem_filter.1 hpT
      rw [bool_not_true, contains_false_iff] at hnb
      by_contra hpS
      exact hnb (List.mem_filter.2
        ⟨hpu, (bool_not_true _).2 ((contains_false_iff _ _).2 hpS)⟩)
    · intro hpS
      refine List.mem_filter.2
        ⟨hsub p hpS, (bool_not_true _).2 ((contains_false_iff _ _).2 ?_)⟩
      intro hmem
      obtain ⟨_, hb⟩ := List.mem_filter.1 hmem
      rw [bool_not_true, contains_false_iff] at hb
      exact hb hpS

/-- Witness for C8 at `{scope:"name", value:"a"}` (which selects `["a"]` ⊆
`{a,b,c}`) in `sampleEnv`. -/
theorem double_not_restores_set_w :
    ∃ T, selectExpression 3 sampleEnv
        (some (mkOp "not" [mkOp "not" [nameNode]])) "w8" = .ok T ∧
      ∀ p, p ∈ T ↔ p ∈ (["a"] : List RushConfigurationProject) :=
  double_not_restores_set 1 sampleEnv nameNode "w8" ["a"] rfl (by decide)

/-- C9: `JsonFileSelectorParser.getAbsolutePath` resolves a value starting
with "." against the current working directory and every other value
against the monorepo root (the `rush.json` folder). -/
theorem json_path_resolution (env : Env) (file : String) :
    (strStartsWith file "." = true →
      getAbsolutePath env file = env.pathResolve env.cwd file) ∧
    (strStartsWith file "." = false →
      getAbsolutePath env file = env.pathResolve env.rushJsonFolder file) := by
  constructor <;> intro h <;> simp [getAbsolutePath, h]

/-- Witness for C9 at the relative value "./sel.json" and the plain value
"sel.json" in `sampleEnv`. -/
theorem json_path_resolution_w :
    getAbsolutePath sampleEnv "./sel.json" =
      sampleEnv.pathResolve sampleEnv.cwd "./sel.json" ∧
    getAbsolutePath sampleEnv "sel.json" =
      sampleEnv.pathResolve sampleEnv.rushJsonFolder "sel.json" :=
  ⟨(json_path_resolution sampleEnv "./sel.json").1 rfl,
   (json_path_resolution sampleEnv "sel.json").2 rfl⟩

/-- C1 (divergence of the code): evaluating the JSON-file selector whose
file contains exactly that same selector never completes within any
recursion budget — the evaluator re-enters itself on the same file forever
instead of failing with a cyclic-inclusion error (there is no in-progress
file-path tracking anywhere in `selectExpression` or
`JsonFileSelectorParser`). -/
theorem cyclic_json_file_diverges (fuel : Nat) (context : String) :
    selectExpression fuel cycEnv (some cycNode) context = .diverge := by
  induction fuel generalizing context with
  | zero => rfl
  | succ n ih =>
    show selectExpression n cycEnv (some cycNode)
      ("JSON file " ++ "/self.json" ++ " in " ++ context) = .diverge
    exact ih _

/-- C4 (amended): for a JSON-File selector, an absent file fails with a
`SelectorError` naming the resolved absolute path and the context; a file
that exists but has invalid contents (fails schema validation) makes the
raw validation error propagate unchanged — it is not converted to a
`SelectorError`. -/
theorem json_file_load_errors (fuel : Nat) (env : Env) (v context : String) :
    (env.files (getAbsolutePath env v) = .missing →
      selectExpression (fuel + 1) env (some (mkSelector "json" v)) context =
        .err (.selectorError ("Unable to find JSON file at \"" ++
          getAbsolutePath env v ++ "\" in " ++ context ++ ".")) ∧
      containsStr ("Unable to find JSON file at \"" ++ getAbsolutePath env v ++
        "\" in " ++ context ++ ".") (getAbsolutePath env v) ∧
      containsStr ("Unable to find JSON file at \"" ++ getAbsolutePath env v ++
        "\" in " ++ context ++ ".") context) ∧
    (∀ m, env.files (getAbsolutePath env v) = .invalid m →
      selectExpression (fuel + 1) env (some (mkSelector "json" v)) context =
        .err (.rawError m)) := by
  constructor
  · intro hm
    refine ⟨?_,
      ⟨"Unable to find JSON file at \"",
       "\" in " ++ context ++ ".", by simp [String.append_assoc]⟩,
      ⟨"Unable to find JSON file at \"" ++ getAbsolutePath env v ++ "\" in ",
       ".", by simp [String.append_assoc]⟩⟩
    rw [selectExpression_json_eq, hm]
    rfl
  · intro m hm
    rw [selectExpression_json_eq, hm]
    rfl

/-- Witness for the amended C4 in `fsEnv`: `nofile.json` is absent (the
error names `/repo/nofile.json` and the context), `bad.json` exists but is
invalid (the raw schema error propagates). -/
theorem json_file_load_errors_w :
    (selectExpression 1 fsEnv (some (mkSelector "json" "nofile.json")) "w4" =
      .err (.selectorError "Unable to find JSON file at \"/repo/nofile.json\" in w4.") ∧
     containsStr "Unable to find JSON file at \"/repo/nofile.json\" in w4."
       "/repo/nofile.json" ∧
     containsStr "Unable to find JSON file at \"/repo/nofile.json\" in w4." "w4") ∧
    selectExpression 1 fsEnv (some (mkSelector "json" "bad.json")) "w4" =
      .err (.rawError "does not conform to the schema") :=
  ⟨(json_file_load_errors 0 fsEnv "nofile.json" "w4").1 rfl,
   (json_file_load_errors 0 fsEnv "bad.json" "w4").2 "does not conform to the schema" rfl⟩

/-- Counterexample to C4 as stated: in `fsEnv` the file `/repo/bad.json`
exists with invalid contents, and evaluating the JSON-File selector for it
fails with the raw validation error, not with a `SelectorError`. -/
theorem json_invalid_file_raw_error_cex :
    selectExpression 1 fsEnv (some (mkSelector "json" "bad.json")) "ctx" =
      .err (.rawError "does not conform to the schema") ∧
    ¬ ∃ m, selectExpression 1 fsEnv (some (mkSelector "json" "bad.json")) "ctx" =
      .err (.selectorError m) := by
  have h : selectExpression 1 fsEnv (some (mkSelector "json" "bad.json")) "ctx" =
      .err (.rawError "does not conform to the schema") := rfl
  refine ⟨h, ?_⟩
  rintro ⟨m, hm⟩
  rw [h] at hm
  simp at hm

/-- C10 (amended): node classification tests truthiness of `scope`, then
`filter`, then `op`: a node whose `scope` is the empty string is not
treated as a Selector, and if its `filter` and `op` keys are also not
truthy it fails with the invalid-object `SelectorError` (not an
unknown-scope error); and every node with a truthy `scope` is evaluated as
a Selector, all its other keys ignored. -/
theorem classification_order (fuel : Nat) (env : Env) (e : ExpressionJson)
    (context : String) :
    (e.scope = some "" → isFilterNode e = false → isOperatorNode e = false →
      selectExpression (fuel + 1) env (some e) context =
        .err (.selectorError ("Invalid object encountered in selector expression in " ++
          context ++ "."))) ∧
    (isSelectorNode e = true →
      selectExpression (fuel + 1) env (some e) context =
        selectExpression (fuel + 1) env
          (some (.node e.scope e.value none none none [])) context) := by
  constructor
  · intro hs h2 h3
    have h1 : isSelectorNode e = false := by
      simp [isSelectorNode, hs, truthy]
    simp [selectExpression, h1, h2, h3]
  · intro h1
    have h1' : isSelectorNode (ExpressionJson.node e.scope e.value none none none []) = true := h1
    simp only [selectExpression, h1, h1', if_true]
    rfl

/-- Witness for the amended C10: `{scope:""}` (no other keys) fails with
the invalid-object error, and a node with `scope:"tag"` plus extra
`filter`/`op` keys evaluates exactly as the plain `{scope:"tag",
value:"x"}` selector. -/
theorem classification_order_w :
    selectExpression 1 sampleEnv (some (.node (some "") none none none none [])) "w10" =
      .err (.selectorError "Invalid object encountered in selector expression in w10.") ∧
    selectExpression 1 sampleEnv
        (some (.node (some "tag") (some "x") (some "to") none (some "or") [])) "w10" =
      selectExpression 1 sampleEnv
        (some (.node (some "tag") (some "x") none none none [])) "w10" :=
  ⟨(classification_order 0 sampleEnv (.node (some "") none none none none []) "w10").1
      rfl rfl rfl,
   (classification_order 0 sampleEnv
      (.node (some "tag") (some "x") (some "to") none (some "or") []) "w10").2 rfl⟩

/-- Counterexample to C10 as stated: the node
`{scope:"", filter:"only", arg:{scope:"name",value:"a"}}` has a `scope`
property equal to the empty string, yet evaluation does not fail with the
invalid-object `SelectorError` — the truthy `filter` key makes it evaluate
as a Filter, succeeding with `["a"]`. -/
theorem empty_scope_with_filter_cex :
    selectExpression 2 sampleEnv (some c10Node) "ctx" = .ok ["a"] ∧
    selectExpression 2 sampleEnv (some c10Node) "ctx" ≠
      .err (.selectorError "Invalid object encountered in selector expression in ctx.") := by
  have h : selectExpression 2 sampleEnv (some c10Node) "ctx" = .ok ["a"] := rfl
  refine ⟨h, ?_⟩
  rw [h]
  simp
